import Mathlib

/-!
Verification development for the `disnake` excerpt consisting of
`disnake/interactions/modal.py` and `disnake/appinfo.py`.

Payloads received from the platform are JSON-like structures; we embed them
as the inductive `JSON` below.  Python `dict` access is modelled by
`JSON.get` (returning `none` when the key is absent or the value is not an
object), Python truthiness by `pyTruthy`, Python's `int(...)` coercion by
`pyInt`, and Python exceptions by the `Except String` monad (the string
records the kind of exception).  Python `dict` construction (insertion
order, later assignments to the same key overwriting in place) is modelled
by `pyDictInsert`/`pyDictLookup`; dictionary keys produced by the code in
scope are JSON scalars (strings in every payload matching the wire schema),
compared by the non-recursive `keyEq`.
-/

namespace Disnake

inductive JSON where
  | null
  | bool (b : Bool)
  | num  (n : Int)
  | str  (s : String)
  | arr  (elems : List JSON)
  | obj  (fields : List (String × JSON))

/-- Python `d.get(k)` / `d[k]` key lookup on a JSON object: the value under
the first occurrence of `k`, `none` when absent (or when the receiver is not
an object, in which case the Python code in scope would raise; no claim in
scope exercises that case). -/
def JSON.get : JSON → String → Option JSON
  | .obj fields, k => (fields.find? (fun p => p.1 == k)).map (·.2)
  | _, _ => none

/-- Python truthiness of a JSON value (`None`, `False`, `0`, `""`, `[]`,
`{}` are falsy). -/
def pyTruthy : JSON → Bool
  | .null => false
  | .bool b => b
  | .num n => n != 0
  | .str s => s != ""
  | .arr xs => !xs.isEmpty
  | .obj fs => !fs.isEmpty

/-- Decimal-digit accumulator for `pyIntOfString`. -/
def decDigitsAux : List Char → Nat → Option Nat
  | [], acc => some acc
  | c :: cs, acc => if c.isDigit then decDigitsAux cs (acc * 10 + (c.toNat - 48)) else none

/-- A non-empty all-digit character list read as a decimal number. -/
def decDigits (cs : List Char) : Option Nat :=
  if cs.isEmpty then none else decDigitsAux cs 0

/-- Python `int(s)` on a string: an optional sign followed by at least one
decimal digit (Python additionally strips whitespace and allows digit-group
underscores; no payload in scope uses those). -/
def pyIntOfString (s : String) : Option Int :=
  match s.data with
  | '-' :: rest => (decDigits rest).map (fun n => -(n : Int))
  | '+' :: rest => (decDigits rest).map (fun n => (n : Int))
  | cs => (decDigits cs).map (fun n => (n : Int))

/-- Python `int(x)`: identity on integers, bool-to-int, decimal-string
parsing (raising `ValueError` on a malformed string, `TypeError` on
non-coercible values). -/
def pyInt : JSON → Except String Int
  | .num n => .ok n
  | .bool b => .ok (if b then 1 else 0)
  | .str s =>
    match pyIntOfString s with
    | some n => .ok n
    | none => .error "ValueError"
  | _ => .error "TypeError"

/-- Whether a JSON value is a scalar (hence hashable, usable as a Python
dict key). -/
def JSON.isScalar : JSON → Bool
  | .arr _ => false
  | .obj _ => false
  | _ => true

/-- Equality test used for Python dict keys.  All keys arising in the code
in scope are scalars; on scalars this agrees with structural equality
(`keyEq_iff_eq`). -/
def keyEq : JSON → JSON → Bool
  | .null, .null => true
  | .bool a, .bool b => a == b
  | .num a, .num b => a == b
  | .str a, .str b => a == b
  | _, _ => false

/-- Python bracket indexing `d[k]`: the value when the key is present, a
`KeyError` otherwise. -/
def require (d : JSON) (k : String) : Except String JSON :=
  match d.get k with
  | some v => .ok v
  | none => .error ("KeyError: " ++ k)

/-- Python `x == n` for an integer literal `n`, as used by the
`component.get("type") == text_input_type` filter. -/
def JSON.eqNum (j : JSON) (n : Int) : Bool :=
  match j with
  | .num m => m == n
  | .bool b => (if b then (1 : Int) else 0) == n
  | _ => false

/-- Assignment `d[k] = v` on a Python dict (as performed by a dict
comprehension): if `k` is already a key its value is replaced in place
(keeping insertion order), otherwise the pair is appended. -/
def pyDictInsert (d : List (JSON × JSON)) (k v : JSON) : List (JSON × JSON) :=
  if d.any (fun p => keyEq p.1 k) then
    d.map (fun p => if keyEq p.1 k then (k, v) else p)
  else
    d ++ [(k, v)]

/-- Lookup in the modelled Python dict. -/
def pyDictLookup (d : List (JSON × JSON)) (k : JSON) : Option JSON :=
  (d.find? (fun p => keyEq p.1 k)).map (·.2)

/-! ## `disnake/interactions/modal.py` -/

/-- `ComponentType.text_input.value`.  Modelled from the spec: the
`ComponentType` enum lives in `disnake/enums.py`, which is not part of the
excerpt; the spec's example fixes the text-input type constant to `4`. -/
def text_input_type : Int := 4

/-- `ModalInteractionData`: the `custom_id` and `components` entries of the
interaction data payload, stored raw (unvalidated), as in
`ModalInteractionData.__init__`. -/
structure ModalInteractionData where
  custom_id : JSON
  components : JSON

/-- `ModalInteractionData.__init__`: `self.custom_id = data["custom_id"]`
and `self.components = data["components"]`; a missing key raises `KeyError`
and no object is produced. -/
def ModalInteractionData.init (data : JSON) : Except String ModalInteractionData :=
  match data.get "custom_id" with
  | none => .error "KeyError: custom_id"
  | some cid =>
    match data.get "components" with
    | none => .error "KeyError: components"
    | some comps => .ok ⟨cid, comps⟩

/-- `ModalInteraction`: the wrapped data plus the `_cs_text_values` cache
slot used by the memoized `text_values` property (empty at construction).
The generic interaction-envelope fields parsed by the base class, and the
optional originating message, are out of scope for the claims and omitted. -/
structure ModalInteraction where
  data : ModalInteractionData
  cs_text_values : Option (List (JSON × JSON)) := none

/-- `ModalInteraction.__init__` (the modal-specific part):
`self.data = ModalInteractionData(data=data["data"])`; the cache slot is
unset. -/
def ModalInteraction.init (payload : JSON) : Except String ModalInteraction :=
  match payload.get "data" with
  | none => .error "KeyError: data"
  | some dd => (ModalInteractionData.init dd).map (fun d => ⟨d, none⟩)

/-- The loop body of `walk_raw_components`: for each action row,
`yield from action_row["components"]`.  A row without a `"components"` key
raises `KeyError`; a non-list value is not iterable in the intended way and
raises. -/
def walkRows : List JSON → Except String (List JSON)
  | [] => .ok []
  | row :: rest =>
    match row.get "components" with
    | some (.arr cs) => (walkRows rest).map (fun tail => cs ++ tail)
    | some _ => .error "TypeError: components is not a list"
    | none => .error "KeyError: components"

/-- `ModalInteraction.walk_raw_components`: flatten the stored action rows
into the sequence of raw component payloads, rows in order and components
within each row in order.  Each Python call builds a fresh generator from
`self.data.components`; the produced (finite) sequence is the returned
list. -/
def ModalInteraction.walk_raw_components (i : ModalInteraction) : Except String (List JSON) :=
  match i.data.components with
  | .arr rows => walkRows rows
  | _ => .error "TypeError: components is not a list"

/-- Whether a raw component passes the filter
`component.get("type") == text_input_type`. -/
def textInput (c : JSON) : Bool :=
  match c.get "type" with
  | some t => t.eqNum text_input_type
  | none => false

/-- One step of the `text_values` dict comprehension: a component passing
the type filter contributes the entry
`component["custom_id"]: component.get("value") or ""` (raising `KeyError`
when it has no `custom_id`); any other component is skipped. -/
def textValuesStep (acc : List (JSON × JSON)) (c : JSON) : Except String (List (JSON × JSON)) :=
  if textInput c then
    match c.get "custom_id" with
    | some k =>
      let v := (c.get "value").getD .null
      .ok (pyDictInsert acc k (if pyTruthy v then v else .str ""))
    | none => .error "KeyError: custom_id"
  else
    .ok acc

/-- The body of the `text_values` property: the dict comprehension over
`self.walk_raw_components()`. -/
def ModalInteraction.computeTextValues (i : ModalInteraction) : Except String (List (JSON × JSON)) := do
  let comps ← i.walk_raw_components
  comps.foldlM textValuesStep []

/-- `ModalInteraction.text_values`.  Modelled from the spec for the
`cached_slot_property` decorator (defined in `disnake/utils.py`, which is
not part of the excerpt): a "compute or return cached" accessor — return
the value stored in the `_cs_text_values` slot if set, otherwise compute
the property body, store the result in the slot and return it.  Reading is
modelled with explicit state passing: the result is paired with the
(possibly updated) object. -/
def ModalInteraction.text_values (i : ModalInteraction) :
    Except String (List (JSON × JSON) × ModalInteraction) :=
  match i.cs_text_values with
  | some v => .ok (v, i)
  | none => (i.computeTextValues).map (fun v => (v, { i with cs_text_values := some v }))

/-- `ModalInteraction.custom_id`: `return self.data.custom_id`. -/
def ModalInteraction.custom_id (i : ModalInteraction) : JSON :=
  i.data.custom_id

/-! ## `disnake/appinfo.py` -/

/-- `Permissions(value)` (from `disnake/permissions.py`, outside the
excerpt): an opaque wrapper around the permission integer, as the spec
treats it. -/
structure Permissions where
  value : Int
  deriving DecidableEq

/-- `ApplicationFlags._from_value(value)` (from `disnake/flags.py`, outside
the excerpt): an opaque wrapper around the raw flags value. -/
structure ApplicationFlags where
  value : JSON

/-- Modelled from the spec: the connection-state collaborator
`state.create_user(payload) -> User` (outside the excerpt) is a pure
lookup; we model the resulting `User` as wrapping the owner sub-payload. -/
structure User where
  payload : JSON

/-- Modelled from the spec: `Team` (from `disnake/team.py`, outside the
excerpt) wraps the team sub-payload. -/
structure Team where
  payload : JSON

/-- Modelled from the spec: `utils._get_as_snowflake(data, key)` (outside
the excerpt) — snowflakes are "typically transmitted as a string and parsed
to an integer"; an absent or null entry yields `None`. -/
def get_as_snowflake (data : JSON) (k : String) : Except String (Option Int) :=
  match data.get k with
  | none => .ok none
  | some .null => .ok none
  | some v => (pyInt v).map some

/-- Python `d.get(k)` where an explicit `null` is indistinguishable from an
absent key on the Python side (both give `None`). -/
def pyGet (d : JSON) (k : String) : Option JSON :=
  match d.get k with
  | some .null => none
  | o => o

/-- Python `d.get(k, default)`. -/
def pyGetD (d : JSON) (k : String) (default : JSON) : JSON :=
  match d.get k with
  | none => default
  | some v => v

/-- `InstallParams`: `_app_id` (from `parent.id`), `_integration_type`,
the raw `scopes` entry and the parsed `permissions`. -/
structure InstallParams where
  app_id : Int
  integration_type : Option Int
  scopes : JSON
  permissions : Permissions

/-- `InstallParams.__init__`: `self.scopes = data["scopes"]` and
`self.permissions = Permissions(int(data["permissions"]))`; missing keys
raise. -/
def InstallParams.init (data : JSON) (parent_id : Int) (integration_type : Option Int) :
    Except String InstallParams := do
  let scopes ← require data "scopes"
  let pj ← require data "permissions"
  let p ← pyInt pj
  .ok ⟨parent_id, integration_type, scopes, ⟨p⟩⟩

/-- Modelled from the spec: `utils.oauth_url` (in `disnake/utils.py`,
outside the excerpt) — "deterministically build a URL embedding the
application id, the scope list (order-preserving, joined by a fixed
delimiter), the permission integer, and, if known, an integration-type
query parameter; no network call". -/
def oauth_url (client_id : Int) (scopes : List String) (permissions : Permissions)
    (integration_type : Option Int) : String :=
  "https://discord.com/oauth2/authorize?client_id=" ++ toString client_id
    ++ "&scope=" ++ String.intercalate "%20" scopes
    ++ "&permissions=" ++ toString permissions.value
    ++ match integration_type with
       | some t => "&integration_type=" ++ toString t
       | none => ""

/-- Elementwise reading of the scope list: every element must be a string
for Python's string join to accept it. -/
def scopeStringsList : List JSON → Except String (List String)
  | [] => .ok []
  | .str s :: rest => (scopeStringsList rest).map (fun tail => s :: tail)
  | _ :: _ => .error "TypeError: scope is not a string"

/-- The scope list as Python's `str.join` consumes it. -/
def scopeStrings : JSON → Except String (List String)
  | .arr xs => scopeStringsList xs
  | _ => .error "TypeError: scopes is not a list"

/-- `InstallParams.to_url`: `utils.oauth_url(self._app_id,
scopes=self.scopes, permissions=self.permissions,
integration_type=self._integration_type or MISSING)`; the integration-type
parameter is passed along exactly when `_integration_type` is not `None`. -/
def InstallParams.to_url (ip : InstallParams) : Except String String := do
  let ss ← scopeStrings ip.scopes
  .ok (oauth_url ip.app_id ss ip.permissions ip.integration_type)

/-- `IntegrationTypeConfiguration`: holds the optional `install_params`. -/
structure IntegrationTypeConfiguration where
  install_params : Option InstallParams

/-- `IntegrationTypeConfiguration.__init__`:
`InstallParams(install_params, parent=parent, integration_type=integration_type)
if (install_params := data.get("oauth2_install_params")) else None`
(a falsy — absent, null or empty — sub-entry yields `None`). -/
def IntegrationTypeConfiguration.init (data : JSON) (parent_id : Int) (integration_type : Int) :
    Except String IntegrationTypeConfiguration :=
  let ip := (data.get "oauth2_install_params").getD .null
  if pyTruthy ip then
    (InstallParams.init ip parent_id (some integration_type)).map (fun p => ⟨some p⟩)
  else
    .ok ⟨none⟩

/-- Insertion into the `integration_types_config` dict (integer keys). -/
def intDictInsert (d : List (Int × IntegrationTypeConfiguration)) (k : Int)
    (v : IntegrationTypeConfiguration) : List (Int × IntegrationTypeConfiguration) :=
  if d.any (fun p => p.1 == k) then
    d.map (fun p => if p.1 == k then (k, v) else p)
  else
    d ++ [(k, v)]

/-- The `integration_types_config` loop of `AppInfo.__init__`:
`for _type, config in (data.get("integration_types_config") or {}).items():`
with `integration_type = int(_type)` and
`IntegrationTypeConfiguration(config or {}, ...)`. -/
def parseIntegrationTypesConfig (o : Option JSON) (parent_id : Int) :
    Except String (List (Int × IntegrationTypeConfiguration)) :=
  let m := o.getD .null
  let m := if pyTruthy m then m else JSON.obj []
  match m with
  | .obj fields =>
    fields.foldlM
      (fun acc kv => do
        let t ← pyInt (.str kv.1)
        let cfgPayload := if pyTruthy kv.2 then kv.2 else JSON.obj []
        let cfg ← IntegrationTypeConfiguration.init cfgPayload parent_id t
        Except.ok (intDictInsert acc t cfg))
      []
  | _ => .error "AttributeError: items"

/-- `AppInfo`: one field per attribute assigned in `AppInfo.__init__`, in
source order.  Entries copied verbatim from the payload keep type `JSON`;
entries the code coerces or wraps use the wrapper types above. -/
structure AppInfo where
  id : Int
  name : JSON
  description : JSON
  icon_hash : JSON
  rpc_origins : JSON
  bot_public : JSON
  bot_require_code_grant : JSON
  owner : User
  team : Option Team
  summary_raw : JSON
  verify_key : JSON
  guild_id : Option Int
  primary_sku_id : Option Int
  slug : Option JSON
  cover_image_hash : Option JSON
  terms_of_service_url : Option JSON
  privacy_policy_url : Option JSON
  flags : Option ApplicationFlags
  tags : Option JSON
  install_params : Option InstallParams
  custom_install_url : Option JSON
  role_connections_verification_url : Option JSON
  approximate_guild_count : JSON
  approximate_user_install_count : JSON
  integration_types_config : List (Int × IntegrationTypeConfiguration)

/-- `AppInfo.__init__`, step for step in source order.  Bracket indexing
(`data["k"]`) raises `KeyError` on absence; `data.get(...)` defaults.  The
`_summary` slot is named `summary_raw`, `_icon` is `icon_hash` and
`_cover_image` is `cover_image_hash` here. -/
def AppInfo.init (data : JSON) : Except String AppInfo := do
  let idj ← require data "id"
  let appId ← pyInt idj
  let name ← require data "name"
  let description ← require data "description"
  let icon ← require data "icon"
  let rpc_origins ← require data "rpc_origins"
  let bot_public ← require data "bot_public"
  let bot_require_code_grant ← require data "bot_require_code_grant"
  let ownerPayload ← require data "owner"
  let teamPayload := (data.get "team").getD .null
  let team := if pyTruthy teamPayload then some (Team.mk teamPayload) else none
  let summary := pyGetD data "summary" (.str "")
  let verify_key ← require data "verify_key"
  let guild_id ← get_as_snowflake data "guild_id"
  let primary_sku_id ← get_as_snowflake data "primary_sku_id"
  let slug := pyGet data "slug"
  let cover_image := pyGet data "cover_image"
  let terms_of_service_url := pyGet data "terms_of_service_url"
  let privacy_policy_url := pyGet data "privacy_policy_url"
  let flags := (pyGet data "flags").map ApplicationFlags.mk
  let tags := pyGet data "tags"
  let install_params ← match data.get "install_params" with
    | some ipd => (InstallParams.init ipd appId none).map some
    | none => pure none
  let custom_install_url := pyGet data "custom_install_url"
  let role_connections_verification_url := pyGet data "role_connections_verification_url"
  let approximate_guild_count := pyGetD data "approximate_guild_count" (.num 0)
  let approximate_user_install_count := pyGetD data "approximate_user_install_count" (.num 0)
  let integration_types_config ←
    parseIntegrationTypesConfig (data.get "integration_types_config") appId
  .ok
    { id := appId, name, description, icon_hash := icon, rpc_origins, bot_public,
      bot_require_code_grant, owner := ⟨ownerPayload⟩, team, summary_raw := summary,
      verify_key, guild_id, primary_sku_id, slug, cover_image_hash := cover_image,
      terms_of_service_url, privacy_policy_url, flags, tags, install_params,
      custom_install_url, role_connections_verification_url, approximate_guild_count,
      approximate_user_install_count, integration_types_config }

/-- The deprecation message passed to `utils.warn_deprecated` by the
`summary` properties. -/
def summaryDeprecationMessage : String :=
  "summary is deprecated and will be removed in a future version. Consider using description instead."

/-- `AppInfo.summary`.  Modelled from the spec for `utils.warn_deprecated`
(outside the excerpt): the property "emits a deprecation warning exactly
once per call, non-fatal" and returns `self._summary`.  The warning side
effect is made explicit by threading a log of emitted warnings. -/
def AppInfo.summary (a : AppInfo) (log : List String) : JSON × List String :=
  (a.summary_raw, log ++ [summaryDeprecationMessage])

/-- `PartialAppInfo`: one field per attribute assigned in
`PartialAppInfo.__init__`, in source order. -/
structure PartialAppInfo where
  id : Int
  name : JSON
  icon_hash : Option JSON
  description : JSON
  rpc_origins : Option JSON
  summary_raw : JSON
  verify_key : JSON
  terms_of_service_url : Option JSON
  privacy_policy_url : Option JSON

/-- `PartialAppInfo.__init__`, step for step in source order. -/
def PartialAppInfo.init (data : JSON) : Except String PartialAppInfo := do
  let idj ← require data "id"
  let appId ← pyInt idj
  let name ← require data "name"
  let icon := pyGet data "icon"
  let description ← require data "description"
  let rpc_origins := pyGet data "rpc_origins"
  let summary := pyGetD data "summary" (.str "")
  let verify_key ← require data "verify_key"
  let terms_of_service_url := pyGet data "terms_of_service_url"
  let privacy_policy_url := pyGet data "privacy_policy_url"
  .ok
    { id := appId, name, icon_hash := icon, description, rpc_origins,
      summary_raw := summary, verify_key, terms_of_service_url, privacy_policy_url }

/-- `PartialAppInfo.summary`: same body as `AppInfo.summary`. -/
def PartialAppInfo.summary (a : PartialAppInfo) (log : List String) : JSON × List String :=
  (a.summary_raw, log ++ [summaryDeprecationMessage])

/-! ## Specification-side definitions

These restate, in the spec's own words, the mappings the claims compare the
code against; they are deliberately written from the spec, not from the
code. -/

/-- Spec-side filter: "components whose `type` equals the text-input type
constant (4)". -/
def specIsTextInput (c : JSON) : Bool :=
  match c.get "type" with
  | some (.num n) => n == 4
  | _ => false

/-- Spec-side value: "its value, with the empty string substituted when the
value is null or absent". -/
def specValue (c : JSON) : JSON :=
  match c.get "value" with
  | none => .str ""
  | some .null => .str ""
  | some v => v

/-- Spec-side text-value mapping: "the mapping whose keys are the
`custom_id` of each component whose type equals the text-input type
constant (4), each mapped to its value, with the empty string substituted
when the value is null or absent; components of any other type are
excluded" (one ordered pair per text-input component). -/
def specTextMapping (comps : List JSON) : List (JSON × JSON) :=
  comps.filterMap (fun c =>
    if specIsTextInput c then (c.get "custom_id").map (fun k => (k, specValue c)) else none)

/-- All keys of a modelled dict are scalars. -/
def keysScalar (d : List (JSON × JSON)) : Prop := ∀ p ∈ d, p.1.isScalar = true
/-- The value under the last occurrence of a key in an ordered pair list. -/
def lookupLast (ps : List (JSON × JSON)) (k : JSON) : Option JSON :=
  (ps.reverse.find? (fun p => keyEq p.1 k)).map (·.2)
/-- First-`some` choice, as Python dict lookup composes along a fold. -/
def optOr {α : Type} : Option α → Option α → Option α
  | some x, _ => some x
  | none, b => b
/-- The ordered pairs the `text_values` dict comprehension inserts, in
traversal order, as the code computes them. -/
def codePairs (comps : List JSON) : List (JSON × JSON) :=
  comps.filterMap (fun c =>
    if textInput c then
      (c.get "custom_id").map (fun k =>
        (k, if pyTruthy ((c.get "value").getD .null) then (c.get "value").getD .null
            else .str ""))
    else none)

/-- The keys `AppInfo.__init__` reads by bracket indexing: absence of any
of these is a construction-time error. -/
def appInfoRequiredKeys : List String :=
  ["id", "name", "description", "icon", "rpc_origins", "bot_public",
   "bot_require_code_grant", "owner", "verify_key"]

/-! ## Helper lemmas -/

theorem exceptBind_ok_iff {ε α β : Type} (x : Except ε α) (f : α → Except ε β) (b : β) :
    x >>= f = .ok b ↔ ∃ a, x = .ok a ∧ f a = .ok b := by
  cases x <;> simp [Bind.bind, Except.bind]

theorem exceptMap_ok_iff {ε α β : Type} (x : Except ε α) (f : α → β) (b : β) :
    x.map f = .ok b ↔ ∃ a, x = .ok a ∧ f a = b := by
  cases x <;> simp [Except.map]

theorem require_ok_iff {d : JSON} {k : String} {v : JSON} :
    require d k = .ok v ↔ d.get k = some v := by
  unfold require; cases h : d.get k <;> simp

theorem keyEq_iff_eq {a b : JSON} (ha : a.isScalar = true) : keyEq a b = true ↔ a = b := by
  cases a <;> cases b <;> simp_all [keyEq, JSON.isScalar]

theorem keyEq_refl {a : JSON} (ha : a.isScalar = true) : keyEq a a = true :=
  (keyEq_iff_eq ha).mpr rfl

theorem textInput_eq_spec (c : JSON) : textInput c = specIsTextInput c := by
  unfold textInput specIsTextInput
  cases c.get "type" with
  | none => rfl
  | some t =>
    cases t with
    | bool b => cases b <;> rfl
    | _ => rfl

theorem find?_replace_other (d : List (JSON × JSON)) (k v k' : JSON)
    (hd : keysScalar d) (hkk' : keyEq k k' = false) :
    List.find? (fun p => keyEq p.1 k')
        (d.map (fun p => if keyEq p.1 k then (k, v) else p)) =
      List.find? (fun p => keyEq p.1 k') d := by
  induction d with
  | nil => rfl
  | cons p rest ih =>
    have hp1 : p.1.isScalar = true := hd p (by simp)
    have hdr : keysScalar rest := fun q hq => hd q (List.mem_cons_of_mem _ hq)
    by_cases hpk : keyEq p.1 k = true
    · have hp1k : p.1 = k := (keyEq_iff_eq hp1).mp hpk
      have hpk' : keyEq p.1 k' = false := hp1k ▸ hkk'
      simp [List.find?, hpk, hpk', hkk', ih hdr]
    · simp only [Bool.not_eq_true] at hpk
      by_cases hpk' : keyEq p.1 k' = true
      · simp [List.find?, hpk, hpk']
      · simp only [Bool.not_eq_true] at hpk'
        simp [List.find?, hpk, hpk', ih hdr]

theorem find?_replace_self (d : List (JSON × JSON)) (k v : JSON)
    (hk : k.isScalar = true) (hmem : d.any (fun p => keyEq p.1 k) = true) :
    List.find? (fun p => keyEq p.1 k)
        (d.map (fun p => if keyEq p.1 k then (k, v) else p)) = some (k, v) := by
  induction d with
  | nil => simp at hmem
  | cons p rest ih =>
    by_cases hpk : keyEq p.1 k = true
    · simp [List.find?, hpk, keyEq_refl hk]
    · simp only [Bool.not_eq_true] at hpk
      have hrest : rest.any (fun q => keyEq q.1 k) = true := by
        rcases List.any_eq_true.mp hmem with ⟨q, hq, hqk⟩
        rcases List.mem_cons.mp hq with rfl | hq'
        · simp [hpk] at hqk
        · exact List.any_eq_true.mpr ⟨q, hq', hqk⟩
      simp [List.find?, hpk, ih hrest]

theorem find?_none_of_no_key (d : List (JSON × JSON)) (k : JSON)
    (hnone : d.any (fun p => keyEq p.1 k) = false) :
    List.find? (fun p => keyEq p.1 k) d = none := by
  rw [List.find?_eq_none]
  exact List.any_eq_false.mp hnone

/-- `pyDictLookup` after `pyDictInsert`: the inserted key now maps to the
inserted value, every other key is unaffected. -/
theorem pyDictLookup_insert (d : List (JSON × JSON)) (k v k' : JSON)
    (hk : k.isScalar = true) (hd : keysScalar d) :
    pyDictLookup (pyDictInsert d k v) k' =
      if keyEq k k' then some v else pyDictLookup d k' := by
  unfold pyDictInsert pyDictLookup
  by_cases hkk' : keyEq k k' = true
  · have hkeq : k = k' := (keyEq_iff_eq hk).mp hkk'
    subst hkeq
    by_cases hmem : d.any (fun p => keyEq p.1 k) = true
    · simp [hmem, hkk', find?_replace_self d k v hk hmem]
    · simp only [Bool.not_eq_true] at hmem
      simp [hmem, hkk', List.find?_append,
        find?_none_of_no_key d k hmem, List.find?, keyEq_refl hk]
  · have hkk'f : keyEq k k' = false := by simpa using hkk'
    by_cases hmem : d.any (fun p => keyEq p.1 k) = true
    · simp [hmem, hkk'f, find?_replace_other d k v k' hd hkk'f]
    · simp only [Bool.not_eq_true] at hmem
      simp [hmem, hkk'f, List.find?_append, List.find?]

/-- Inserting with a scalar key either leaves the key list unchanged
(overwrite in place) or appends the new key. -/
theorem pyDictInsert_keys (d : List (JSON × JSON)) (k v : JSON)
    (hk : k.isScalar = true) (hd : keysScalar d) :
    (pyDictInsert d k v).map (·.1) =
      if d.any (fun p => keyEq p.1 k) then d.map (·.1) else d.map (·.1) ++ [k] := by
  unfold pyDictInsert
  by_cases hmem : d.any (fun p => keyEq p.1 k) = true
  · simp only [hmem, if_true, List.map_map]
    apply List.map_congr_left
    intro p hp
    by_cases hpk : keyEq p.1 k = true
    · have : p.1 = k := (keyEq_iff_eq (hd p hp)).mp hpk
      simp [Function.comp, hpk, this, keyEq_refl hk]
    · simp only [Bool.not_eq_true] at hpk
      simp [Function.comp, hpk]
  · simp only [Bool.not_eq_true] at hmem
    simp [hmem]

theorem pyDictInsert_keysScalar (d : List (JSON × JSON)) (k v : JSON)
    (hk : k.isScalar = true) (hd : keysScalar d) :
    keysScalar (pyDictInsert d k v) := by
  unfold pyDictInsert
  intro p hp
  by_cases hmem : d.any (fun q => keyEq q.1 k) = true
  · simp only [hmem, if_true, List.mem_map] at hp
    rcases hp with ⟨q, hq, rfl⟩
    by_cases hqk : keyEq q.1 k = true
    · simp [hqk, hk]
    · simp only [Bool.not_eq_true] at hqk
      simp [hqk]
      exact hd q hq
  · simp only [Bool.not_eq_true] at hmem
    simp only [hmem] at hp
    rcases List.mem_append.mp hp with hq | hq
    · exact hd p hq
    · simp at hq
      simp [hq, hk]

/-- Nodup keys are preserved by insertion of a scalar key. -/
theorem pyDictInsert_keys_nodup (d : List (JSON × JSON)) (k v : JSON)
    (hk : k.isScalar = true) (hd : keysScalar d)
    (hnd : (d.map (·.1)).Nodup) : ((pyDictInsert d k v).map (·.1)).Nodup := by
  rw [pyDictInsert_keys d k v hk hd]
  by_cases hmem : d.any (fun p => keyEq p.1 k) = true
  · simpa [hmem] using hnd
  · simp only [Bool.not_eq_true] at hmem
    simp only [hmem, if_neg, Bool.false_eq_true, not_false_eq_true]
    rw [List.nodup_append]
    refine ⟨hnd, List.nodup_singleton k, ?_⟩
    intro x hx hk'
    simp at hk'
    subst hk'
    rcases List.mem_map.mp hx with ⟨q, hq, rfl⟩
    have := (List.any_eq_false.mp hmem) q hq
    exact this (keyEq_refl (hd q hq))

/-- The Python dict built by a left fold of insertions: lookup returns the
value of the last inserted pair with the looked-up key, falling back to the
initial dict. -/
theorem pyDictLookup_fold (ps : List (JSON × JSON)) (acc : List (JSON × JSON)) (k' : JSON)
    (hps : ∀ p ∈ ps, p.1.isScalar = true) (hacc : keysScalar acc) :
    pyDictLookup (ps.foldl (fun d p => pyDictInsert d p.1 p.2) acc) k' =
      optOr (lookupLast ps k') (pyDictLookup acc k') := by
  induction ps generalizing acc with
  | nil => simp [lookupLast, optOr]
  | cons p rest ih =>
    have hp1 : p.1.isScalar = true := hps p (by simp)
    have hrest : ∀ q ∈ rest, q.1.isScalar = true :=
      fun q hq => hps q (List.mem_cons_of_mem _ hq)
    have hacc' : keysScalar (pyDictInsert acc p.1 p.2) :=
      pyDictInsert_keysScalar acc p.1 p.2 hp1 hacc
    rw [List.foldl_cons, ih _ hrest hacc',
      pyDictLookup_insert acc p.1 p.2 k' hp1 hacc]
    have hlast : lookupLast (p :: rest) k' =
        optOr (lookupLast rest k') (if keyEq p.1 k' then some p.2 else none) := by
      unfold lookupLast
      rw [List.reverse_cons, List.find?_append]
      cases hfind : rest.reverse.find? (fun q => keyEq q.1 k') with
      | some q => simp [optOr, hfind]
      | none =>
        simp only [hfind, optOr]
        by_cases hpk' : keyEq p.1 k' = true
        · simp [List.find?, hpk']
        · simp only [Bool.not_eq_true] at hpk'
          simp [List.find?, hpk']
    rw [hlast]
    cases hl : lookupLast rest k' with
    | some w => simp [optOr]
    | none =>
      by_cases hpk' : keyEq p.1 k' = true
      · simp [optOr, hpk']
      · simp only [Bool.not_eq_true] at hpk'
        simp [optOr, hpk']

/-- Folding insertions of pairs with pairwise-distinct scalar keys, all
fresh for the accumulator, appends the pairs in order. -/
theorem pyDictFold_fresh (ps : List (JSON × JSON)) (acc : List (JSON × JSON))
    (hps : ∀ p ∈ ps, p.1.isScalar = true) (hacc : keysScalar acc)
    (hnd : (ps.map (·.1)).Nodup)
    (hdisj : ∀ p ∈ ps, ∀ q ∈ acc, q.1 ≠ p.1) :
    ps.foldl (fun d p => pyDictInsert d p.1 p.2) acc = acc ++ ps := by
  induction ps generalizing acc with
  | nil => simp
  | cons p rest ih =>
    have hp1 : p.1.isScalar = true := hps p (by simp)
    have hrest : ∀ q ∈ rest, q.1.isScalar = true :=
      fun q hq => hps q (List.mem_cons_of_mem _ hq)
    have hfresh : acc.any (fun q => keyEq q.1 p.1) = false := by
      rw [List.any_eq_false]
      intro q hq hqk
      exact hdisj p (by simp) q hq ((keyEq_iff_eq (hacc q hq)).mp hqk)
    have hins : pyDictInsert acc p.1 p.2 = acc ++ [p] := by
      unfold pyDictInsert
      simp [hfresh]
    have haccp : keysScalar (acc ++ [p]) := by
      intro q hq
      rcases List.mem_append.mp hq with h | h
      · exact hacc q h
      · simp at h
        simp [h, hp1]
    have hnd' : (rest.map (·.1)).Nodup := by
      simpa using (List.nodup_cons.mp (by simpa using hnd)).2
    have hdisj' : ∀ r ∈ rest, ∀ q ∈ acc ++ [p], q.1 ≠ r.1 := by
      intro r hr q hq
      rcases List.mem_append.mp hq with h | h
      · exact hdisj r (List.mem_cons_of_mem _ hr) q h
      · simp at h
        intro hqr
        have hpr : p.1 = r.1 := by rw [← h]; exact hqr
        have hmem : p.1 ∈ rest.map (·.1) := hpr ▸ List.mem_map.mpr ⟨r, hr, rfl⟩
        exact (List.nodup_cons.mp (by simpa using hnd)).1 hmem
    rw [List.foldl_cons, hins, ih (acc ++ [p]) hrest haccp hnd' hdisj']
    simp

/-- As long as every text-input component has a `custom_id`, the dict
comprehension succeeds and builds the dict by inserting `codePairs` in
order. -/
theorem foldlM_textValuesStep (comps : List JSON) (acc : List (JSON × JSON))
    (hcid : ∀ c ∈ comps, textInput c = true → (c.get "custom_id").isSome) :
    comps.foldlM textValuesStep acc =
      .ok ((codePairs comps).foldl (fun d p => pyDictInsert d p.1 p.2) acc) := by
  induction comps generalizing acc with
  | nil => simp [codePairs, pure, Except.pure]
  | cons c rest ih =>
    have hrest : ∀ c' ∈ rest, textInput c' = true → (c'.get "custom_id").isSome :=
      fun c' hc' => hcid c' (List.mem_cons_of_mem _ hc')
    by_cases ht : textInput c = true
    · rcases Option.isSome_iff_exists.mp (hcid c (by simp) ht) with ⟨k, hk⟩
      have hstep : textValuesStep acc c =
          .ok (pyDictInsert acc k
            (if pyTruthy ((c.get "value").getD .null) then (c.get "value").getD .null
             else .str "")) := by
        unfold textValuesStep
        simp [ht, hk]
      have hpair : codePairs (c :: rest) =
          (k, if pyTruthy ((c.get "value").getD .null) then (c.get "value").getD .null
              else .str "") :: codePairs rest := by
        unfold codePairs
        simp [ht, hk]
      rw [List.foldlM_cons, hstep]
      simp only [bind, Except.bind]
      rw [ih _ hrest, hpair, List.foldl_cons]
    · simp only [Bool.not_eq_true] at ht
      have hstep : textValuesStep acc c = .ok acc := by
        unfold textValuesStep
        simp [ht]
      have hpair : codePairs (c :: rest) = codePairs rest := by
        unfold codePairs
        simp [ht]
      rw [List.foldlM_cons, hstep]
      simp only [bind, Except.bind]
      rw [ih _ hrest, hpair]

/-- Under the wire schema's typing of text inputs (string `custom_id`,
string-or-null-or-absent `value`), the pairs the code inserts are exactly
the pairs of the spec-side mapping. -/
theorem codePairs_eq_spec (comps : List JSON)
    (hval : ∀ c ∈ comps, textInput c = true →
      c.get "value" = none ∨ c.get "value" = some .null ∨
        ∃ s, c.get "value" = some (.str s)) :
    codePairs comps = specTextMapping comps := by
  unfold codePairs specTextMapping
  apply List.filterMap_congr
  intro c hc
  rw [← textInput_eq_spec]
  by_cases ht : textInput c = true
  · simp only [ht, if_true]
    cases hcid : c.get "custom_id" with
    | none => rfl
    | some k =>
      simp only [Option.map_some']
      have hv := hval c hc ht
      rcases hv with hv | hv | ⟨s, hv⟩
      · simp [specValue, hv, pyTruthy]
      · simp [specValue, hv, pyTruthy]
      · by_cases hs : s = ""
        · subst hs
          simp [specValue, hv, pyTruthy]
        · simp [specValue, hv, pyTruthy, hs]
  · simp only [Bool.not_eq_true] at ht
    simp [ht]

theorem optOr_none {α : Type} (x : Option α) : optOr x none = x := by
  cases x <;> rfl

/-- Text-input components with string custom ids give scalar dict keys. -/
theorem codePairs_keysScalar (comps : List JSON)
    (hcid : ∀ c ∈ comps, textInput c = true → ∃ s, c.get "custom_id" = some (.str s)) :
    ∀ p ∈ codePairs comps, p.1.isScalar = true := by
  intro p hp
  unfold codePairs at hp
  rcases List.mem_filterMap.mp hp with ⟨c, hc, hf⟩
  by_cases ht : textInput c = true
  · rcases hcid c hc ht with ⟨s, hs⟩
    simp [ht, hs] at hf
    rw [← hf]
    rfl
  · simp only [Bool.not_eq_true] at ht
    simp [ht] at hf

/-- Nodup keys of the dict built by a fold of insertions. -/
theorem pyDictFold_keys_nodup (ps : List (JSON × JSON)) (acc : List (JSON × JSON))
    (hps : ∀ p ∈ ps, p.1.isScalar = true) (hacc : keysScalar acc)
    (hnd : (acc.map (·.1)).Nodup) :
    (((ps.foldl (fun d p => pyDictInsert d p.1 p.2) acc)).map (·.1)).Nodup := by
  induction ps generalizing acc with
  | nil => simpa using hnd
  | cons p rest ih =>
    have hp1 : p.1.isScalar = true := hps p (by simp)
    have hrest : ∀ q ∈ rest, q.1.isScalar = true :=
      fun q hq => hps q (List.mem_cons_of_mem _ hq)
    rw [List.foldl_cons]
    exact ih _ hrest (pyDictInsert_keysScalar acc p.1 p.2 hp1 hacc)
      (pyDictInsert_keys_nodup acc p.1 p.2 hp1 hacc hnd)

/-- Scalar keys of the dict built by a fold of insertions. -/
theorem pyDictFold_keysScalar (ps : List (JSON × JSON)) (acc : List (JSON × JSON))
    (hps : ∀ p ∈ ps, p.1.isScalar = true) (hacc : keysScalar acc) :
    keysScalar (ps.foldl (fun d p => pyDictInsert d p.1 p.2) acc) := by
  induction ps generalizing acc with
  | nil => simpa using hacc
  | cons p rest ih =>
    have hp1 : p.1.isScalar = true := hps p (by simp)
    have hrest : ∀ q ∈ rest, q.1.isScalar = true :=
      fun q hq => hps q (List.mem_cons_of_mem _ hq)
    rw [List.foldl_cons]
    exact ih _ hrest (pyDictInsert_keysScalar acc p.1 p.2 hp1 hacc)

/-- `walkRows` flattens well-formed action rows in row-major order. -/
theorem walkRows_ok (rows : List JSON) (compss : List (List JSON))
    (hlen : rows.length = compss.length)
    (hz : ∀ p ∈ rows.zip compss, p.1.get "components" = some (.arr p.2)) :
    walkRows rows = .ok compss.flatten := by
  induction rows generalizing compss with
  | nil =>
    cases compss with
    | nil => simp [walkRows]
    | cons _ _ => simp at hlen
  | cons r rest ih =>
    cases compss with
    | nil => simp at hlen
    | cons cs csrest =>
      have hr : r.get "components" = some (.arr cs) := hz (r, cs) (by simp)
      have hz' : ∀ p ∈ rest.zip csrest, p.1.get "components" = some (.arr p.2) :=
        fun p hp => hz p (by simp [hp])
      have hlen' : rest.length = csrest.length := by simpa using hlen
      unfold walkRows
      rw [hr, ih csrest hlen' hz']
      simp [Except.map]

/-- The dict comprehension of `text_values`, characterized through the
insertion fold, given that every text-input component has a custom id. -/
theorem computeTextValues_ok (i : ModalInteraction) (comps : List JSON)
    (hwalk : i.walk_raw_components = .ok comps)
    (hcid : ∀ c ∈ comps, textInput c = true → (c.get "custom_id").isSome) :
    i.computeTextValues =
      .ok ((codePairs comps).foldl (fun d p => pyDictInsert d p.1 p.2) []) := by
  unfold ModalInteraction.computeTextValues
  rw [hwalk]
  simp only [bind, Except.bind]
  exact foldlM_textValuesStep comps [] hcid

/-! ## Claims about `disnake/interactions/modal.py` -/

/-- C1: for every `ModalInteraction` whose data payload contains action
rows (i.e. `walk_raw_components` succeeds with component list `comps`),
with each text-input component carrying a string `custom_id` and a
string-or-null-or-absent `value` (the wire schema's typing), and with
distinct text-input custom ids (duplicates are claim C9), `text_values`
equals the spec-side mapping: one entry per component whose `type` equals
the text-input constant 4, keyed by its `custom_id`, mapped to its value
with `""` substituted for a null or absent value; components of any other
type are excluded. -/
theorem claim1_text_values_matches_spec
    (i : ModalInteraction) (comps : List JSON)
    (hwalk : i.walk_raw_components = .ok comps)
    (hcache : i.cs_text_values = none)
    (hcid : ∀ c ∈ comps, textInput c = true → ∃ s, c.get "custom_id" = some (.str s))
    (hval : ∀ c ∈ comps, textInput c = true →
      c.get "value" = none ∨ c.get "value" = some .null ∨
        ∃ s, c.get "value" = some (.str s))
    (hnd : ((specTextMapping comps).map (·.1)).Nodup) :
    (i.text_values).map Prod.fst = .ok (specTextMapping comps) := by
  have hcid' : ∀ c ∈ comps, textInput c = true → (c.get "custom_id").isSome := by
    intro c hc ht
    rcases hcid c hc ht with ⟨s, hs⟩
    simp [hs]
  have hspec : codePairs comps = specTextMapping comps := codePairs_eq_spec comps hval
  have hscalar : ∀ p ∈ codePairs comps, p.1.isScalar = true := codePairs_keysScalar comps hcid
  have hfold : (codePairs comps).foldl (fun d p => pyDictInsert d p.1 p.2) [] =
      specTextMapping comps := by
    rw [pyDictFold_fresh (codePairs comps) [] hscalar (fun q hq => absurd hq (by simp))
      (hspec ▸ hnd) (fun p _ q hq => absurd hq (by simp))]
    simpa using hspec
  have hcompute : i.computeTextValues = .ok (specTextMapping comps) := by
    rw [computeTextValues_ok i comps hwalk hcid', hfold]
  unfold ModalInteraction.text_values
  rw [hcache, hcompute]
  rfl

/-- Witness for C1: the spec's own example — modal custom id `"profile"`,
one action row with a text input `{type: 4, custom_id: "bio", value:
"hello"}` and a non-text component `{type: 3, custom_id: "ignored"}`. -/
theorem claim1_text_values_matches_spec_witness :
    (∃ i, ModalInteraction.init (.obj [("data", .obj [
        ("custom_id", .str "profile"),
        ("components", .arr [
          .obj [("type", .num 1), ("components", .arr [
            .obj [("type", .num 4), ("custom_id", .str "bio"), ("value", .str "hello")],
            .obj [("type", .num 3), ("custom_id", .str "ignored")]])]])])]) = .ok i ∧
      (i.text_values).map Prod.fst = .ok [(.str "bio", .str "hello")] ∧
      i.custom_id = .str "profile") := by
  refine ⟨⟨⟨.str "profile", .arr [
      .obj [("type", .num 1), ("components", .arr [
        .obj [("type", .num 4), ("custom_id", .str "bio"), ("value", .str "hello")],
        .obj [("type", .num 3), ("custom_id", .str "ignored")]])]]⟩, none⟩, rfl, ?_, rfl⟩
  have h := claim1_text_values_matches_spec
    ⟨⟨.str "profile", .arr [
      .obj [("type", .num 1), ("components", .arr [
        .obj [("type", .num 4), ("custom_id", .str "bio"), ("value", .str "hello")],
        .obj [("type", .num 3), ("custom_id", .str "ignored")]])]]⟩, none⟩
    [.obj [("type", .num 4), ("custom_id", .str "bio"), ("value", .str "hello")],
     .obj [("type", .num 3), ("custom_id", .str "ignored")]]
    rfl rfl
    (by
      intro c hc ht
      simp only [List.mem_cons, List.mem_singleton, List.not_mem_nil, or_false] at hc
      rcases hc with rfl | rfl
      · exact ⟨"bio", rfl⟩
      · exact absurd ht (by decide))
    (by
      intro c hc ht
      simp only [List.mem_cons, List.mem_singleton, List.not_mem_nil, or_false] at hc
      rcases hc with rfl | rfl
      · exact Or.inr (Or.inr ⟨"hello", rfl⟩)
      · exact absurd ht (by decide))
    (by
      rw [show specTextMapping
        [.obj [("type", .num 4), ("custom_id", .str "bio"), ("value", .str "hello")],
         .obj [("type", .num 3), ("custom_id", .str "ignored")]] =
          [(.str "bio", .str "hello")] from rfl]
      simp)
  rw [h]
  rfl

/-- C4: reading `text_values` computes the mapping on first read and stores
it in the cache slot; any successful read leaves every other attribute (the
stored data, hence also `custom_id` and `walk_raw_components`) unchanged,
returns an object whose cache is set, and a subsequent read on that object
returns the identical cached value and object without recomputation; a read
on an object whose cache is already set returns it unchanged. -/
theorem claim4_text_values_memoized (i : ModalInteraction)
    (v : List (JSON × JSON)) (i' : ModalInteraction)
    (h : i.text_values = .ok (v, i')) :
    i'.data = i.data ∧
    i'.cs_text_values = some v ∧
    i'.text_values = .ok (v, i') ∧
    i'.custom_id = i.custom_id ∧
    i'.walk_raw_components = i.walk_raw_components ∧
    (∀ w, i.cs_text_values = some w → v = w ∧ i' = i) ∧
    (i.cs_text_values = none →
      i.computeTextValues = .ok v ∧ i' = { i with cs_text_values := some v }) := by
  unfold ModalInteraction.text_values at h
  cases hc : i.cs_text_values with
  | some w =>
    rw [hc] at h
    have hv : w = v ∧ i = i' := by
      have := Except.ok.inj h
      exact ⟨congrArg Prod.fst this, congrArg Prod.snd this⟩
    rcases hv with ⟨rfl, rfl⟩
    refine ⟨rfl, hc, ?_, rfl, rfl, ?_, ?_⟩
    · unfold ModalInteraction.text_values
      rw [hc]
    · intro w' hw'
      exact ⟨Option.some.inj hw', rfl⟩
    · intro hnone
      exact absurd hnone (by simp)
  | none =>
    rw [hc] at h
    cases hcv : i.computeTextValues with
    | error e =>
      rw [hcv] at h
      cases h
    | ok u =>
      rw [hcv] at h
      have := Except.ok.inj h
      have hu : u = v := congrArg Prod.fst this
      have hi' : { i with cs_text_values := some u } = i' := congrArg Prod.snd this
      subst hu
      rw [← hi']
      refine ⟨rfl, rfl, ?_, rfl, rfl, ?_, ?_⟩
      · unfold ModalInteraction.text_values
        rfl
      · intro w' hw'
        exact absurd hw' (by simp)
      · intro _
        exact ⟨rfl, rfl⟩

/-- Witness for C4: a concrete one-row modal; the first read computes and
caches, the second read returns the identical result. -/
theorem claim4_text_values_memoized_witness :
    ∃ v i', (ModalInteraction.text_values
        ⟨⟨.str "m", .arr [.obj [("components", .arr [
          .obj [("type", .num 4), ("custom_id", .str "bio"), ("value", .str "hi")]])]]⟩,
         none⟩) = .ok (v, i') ∧
      i'.cs_text_values = some v ∧ i'.text_values = .ok (v, i') := by
  refine ⟨[(.str "bio", .str "hi")],
    ⟨⟨.str "m", .arr [.obj [("components", .arr [
      .obj [("type", .num 4), ("custom_id", .str "bio"), ("value", .str "hi")]])]]⟩,
     some [(.str "bio", .str "hi")]⟩, rfl, ?_, ?_⟩
  · exact (claim4_text_values_memoized
      ⟨⟨.str "m", .arr [.obj [("components", .arr [
        .obj [("type", .num 4), ("custom_id", .str "bio"), ("value", .str "hi")]])]]⟩, none⟩
      [(.str "bio", .str "hi")]
      ⟨⟨.str "m", .arr [.obj [("components", .arr [
        .obj [("type", .num 4), ("custom_id", .str "bio"), ("value", .str "hi")]])]]⟩,
       some [(.str "bio", .str "hi")]⟩ rfl).2.1
  · exact (claim4_text_values_memoized
      ⟨⟨.str "m", .arr [.obj [("components", .arr [
        .obj [("type", .num 4), ("custom_id", .str "bio"), ("value", .str "hi")]])]]⟩, none⟩
      [(.str "bio", .str "hi")]
      ⟨⟨.str "m", .arr [.obj [("components", .arr [
        .obj [("type", .num 4), ("custom_id", .str "bio"), ("value", .str "hi")]])]]⟩,
       some [(.str "bio", .str "hi")]⟩ rfl).2.2.1

/-- C5: on a `ModalInteraction` whose stored `components` entry is a list
of action rows, each row holding a list of component payloads,
`walk_raw_components` yields exactly those payloads in row-major order
(rows in input order, components within each row in input order); and the
result is recomputed from the stored rows alone on every call — any object
with the same stored data (in particular the same object again, regardless
of the `text_values` cache) yields the same sequence. -/
theorem claim5_walk_raw_components_row_major (i : ModalInteraction)
    (rows : List JSON) (compss : List (List JSON))
    (hc : i.data.components = .arr rows)
    (hlen : rows.length = compss.length)
    (hz : ∀ p ∈ rows.zip compss, p.1.get "components" = some (.arr p.2)) :
    i.walk_raw_components = .ok compss.flatten ∧
    (∀ j : ModalInteraction, j.data = i.data →
      j.walk_raw_components = i.walk_raw_components) := by
  constructor
  · unfold ModalInteraction.walk_raw_components
    rw [hc]
    exact walkRows_ok rows compss hlen hz
  · intro j hj
    unfold ModalInteraction.walk_raw_components
    rw [hj]

/-- Witness for C5: two rows with two and one components; the flattening is
row-major, and an object with a populated cache yields the same sequence. -/
theorem claim5_walk_raw_components_row_major_witness :
    (ModalInteraction.walk_raw_components
        ⟨⟨.str "m", .arr [
          .obj [("components", .arr [.obj [("custom_id", .str "a")],
                                     .obj [("custom_id", .str "b")]])],
          .obj [("components", .arr [.obj [("custom_id", .str "c")]])]]⟩, none⟩ =
      .ok [.obj [("custom_id", .str "a")], .obj [("custom_id", .str "b")],
           .obj [("custom_id", .str "c")]]) ∧
    (ModalInteraction.walk_raw_components
        ⟨⟨.str "m", .arr [
          .obj [("components", .arr [.obj [("custom_id", .str "a")],
                                     .obj [("custom_id", .str "b")]])],
          .obj [("components", .arr [.obj [("custom_id", .str "c")]])]]⟩, some []⟩ =
      ModalInteraction.walk_raw_components
        ⟨⟨.str "m", .arr [
          .obj [("components", .arr [.obj [("custom_id", .str "a")],
                                     .obj [("custom_id", .str "b")]])],
          .obj [("components", .arr [.obj [("custom_id", .str "c")]])]]⟩, none⟩) := by
  have h := claim5_walk_raw_components_row_major
    ⟨⟨.str "m", .arr [
      .obj [("components", .arr [.obj [("custom_id", .str "a")],
                                 .obj [("custom_id", .str "b")]])],
      .obj [("components", .arr [.obj [("custom_id", .str "c")]])]]⟩, none⟩
    [.obj [("components", .arr [.obj [("custom_id", .str "a")],
                                .obj [("custom_id", .str "b")]])],
     .obj [("components", .arr [.obj [("custom_id", .str "c")]])]]
    [[.obj [("custom_id", .str "a")], .obj [("custom_id", .str "b")]],
     [.obj [("custom_id", .str "c")]]]
    rfl rfl
    (by
      intro p hp
      simp only [List.zip_cons_cons, List.zip_nil_right, List.mem_cons,
        List.not_mem_nil, or_false] at hp
      rcases hp with rfl | rfl <;> rfl)
  exact ⟨h.1.trans (by rfl), h.2 _ rfl⟩

/-- C8: `ModalInteractionData` construction succeeds, storing the two
entries raw, exactly when both `custom_id` and `components` are present in
the data payload (regardless of the shape of the nested component entries),
and fails with a key error otherwise, returning no object; and
`ModalInteraction.custom_id` returns the stored `custom_id` of the data. -/
theorem claim8_data_init_requires_keys (dd : JSON) :
    ((∃ d, ModalInteractionData.init dd = .ok d) ↔
      (dd.get "custom_id").isSome ∧ (dd.get "components").isSome) ∧
    (∀ cid comps, dd.get "custom_id" = some cid → dd.get "components" = some comps →
      ModalInteractionData.init dd = .ok ⟨cid, comps⟩) ∧
    ((dd.get "custom_id") = none → ModalInteractionData.init dd = .error "KeyError: custom_id") ∧
    ((dd.get "custom_id").isSome → dd.get "components" = none →
      ModalInteractionData.init dd = .error "KeyError: components") ∧
    (∀ i : ModalInteraction, i.custom_id = i.data.custom_id) := by
  refine ⟨?_, ?_, ?_, ?_, fun i => rfl⟩
  · constructor
    · rintro ⟨d, hd⟩
      unfold ModalInteractionData.init at hd
      cases h1 : dd.get "custom_id" with
      | none => rw [h1] at hd; cases hd
      | some cid =>
        cases h2 : dd.get "components" with
        | none => rw [h1, h2] at hd; cases hd
        | some comps => simp [h1, h2]
    · rintro ⟨h1, h2⟩
      rcases Option.isSome_iff_exists.mp h1 with ⟨cid, hcid⟩
      rcases Option.isSome_iff_exists.mp h2 with ⟨comps, hcomps⟩
      refine ⟨⟨cid, comps⟩, ?_⟩
      unfold ModalInteractionData.init
      rw [hcid, hcomps]
  · intro cid comps h1 h2
    unfold ModalInteractionData.init
    rw [h1, h2]
  · intro h1
    unfold ModalInteractionData.init
    rw [h1]
  · intro h1 h2
    rcases Option.isSome_iff_exists.mp h1 with ⟨cid, hcid⟩
    unfold ModalInteractionData.init
    rw [hcid, h2]

/-- Witness for C8: both keys present (with badly-shaped nested components,
stored unvalidated) and each key missing in turn. -/
theorem claim8_data_init_requires_keys_witness :
    (ModalInteractionData.init (.obj [("custom_id", .str "m"), ("components", .str "garbage")]) =
      .ok ⟨.str "m", .str "garbage"⟩) ∧
    (ModalInteractionData.init (.obj [("components", .arr [])]) =
      .error "KeyError: custom_id") ∧
    (ModalInteractionData.init (.obj [("custom_id", .str "m")]) =
      .error "KeyError: components") := by
  refine ⟨?_, ?_, ?_⟩
  · exact (claim8_data_init_requires_keys _).2.1 (.str "m") (.str "garbage") rfl rfl
  · exact (claim8_data_init_requires_keys _).2.2.1 rfl
  · exact (claim8_data_init_requires_keys _).2.2.2.1 (by rfl) rfl

/-- C9: with text-input components typed as by the wire schema (string
`custom_id`, string-or-null-or-absent `value`) — duplicates allowed —
`text_values` holds at most one entry per custom id, and the entry for any
custom id is the value of the last text-input component with that custom id
in row-major traversal order (earlier occurrences are overwritten). -/
theorem claim9_duplicate_custom_id_last_wins
    (i : ModalInteraction) (comps : List JSON)
    (hwalk : i.walk_raw_components = .ok comps)
    (hcache : i.cs_text_values = none)
    (hcid : ∀ c ∈ comps, textInput c = true → ∃ s, c.get "custom_id" = some (.str s))
    (hval : ∀ c ∈ comps, textInput c = true →
      c.get "value" = none ∨ c.get "value" = some .null ∨
        ∃ s, c.get "value" = some (.str s)) :
    ∃ d, (i.text_values).map Prod.fst = .ok d ∧
      (d.map (·.1)).Nodup ∧
      (∀ k, pyDictLookup d k = lookupLast (specTextMapping comps) k) := by
  have hcid' : ∀ c ∈ comps, textInput c = true → (c.get "custom_id").isSome := by
    intro c hc ht
    rcases hcid c hc ht with ⟨s, hs⟩
    simp [hs]
  have hscalar : ∀ p ∈ codePairs comps, p.1.isScalar = true := codePairs_keysScalar comps hcid
  have hspec : codePairs comps = specTextMapping comps := codePairs_eq_spec comps hval
  refine ⟨(codePairs comps).foldl (fun d p => pyDictInsert d p.1 p.2) [], ?_, ?_, ?_⟩
  · unfold ModalInteraction.text_values
    rw [hcache, computeTextValues_ok i comps hwalk hcid']
    rfl
  · exact pyDictFold_keys_nodup (codePairs comps) [] hscalar
      (fun q hq => absurd hq (by simp)) (by simp)
  · intro k
    rw [pyDictLookup_fold (codePairs comps) [] k hscalar (fun q hq => absurd hq (by simp)),
      hspec]
    have : pyDictLookup [] k = none := rfl
    rw [this, optOr_none]

/-- Witness for C9: two text inputs sharing custom id `"a"`; the single
resulting entry holds the later value. -/
theorem claim9_duplicate_custom_id_last_wins_witness :
    ∃ d, (ModalInteraction.text_values
        ⟨⟨.str "m", .arr [.obj [("components", .arr [
          .obj [("type", .num 4), ("custom_id", .str "a"), ("value", .str "first")],
          .obj [("type", .num 4), ("custom_id", .str "a"), ("value", .str "second")]])]]⟩,
         none⟩).map Prod.fst = .ok d ∧
      (d.map (·.1)).Nodup ∧
      pyDictLookup d (.str "a") = some (.str "second") := by
  have h := claim9_duplicate_custom_id_last_wins
    ⟨⟨.str "m", .arr [.obj [("components", .arr [
      .obj [("type", .num 4), ("custom_id", .str "a"), ("value", .str "first")],
      .obj [("type", .num 4), ("custom_id", .str "a"), ("value", .str "second")]])]]⟩,
     none⟩
    [.obj [("type", .num 4), ("custom_id", .str "a"), ("value", .str "first")],
     .obj [("type", .num 4), ("custom_id", .str "a"), ("value", .str "second")]]
    rfl rfl
    (by
      intro c hc ht
      simp only [List.mem_cons, List.mem_singleton, List.not_mem_nil, or_false] at hc
      rcases hc with rfl | rfl
      · exact ⟨"a", rfl⟩
      · exact ⟨"a", rfl⟩)
    (by
      intro c hc ht
      simp only [List.mem_cons, List.mem_singleton, List.not_mem_nil, or_false] at hc
      rcases hc with rfl | rfl
      · exact Or.inr (Or.inr ⟨"first", rfl⟩)
      · exact Or.inr (Or.inr ⟨"second", rfl⟩))
  rcases h with ⟨d, hd, hnd, hlook⟩
  refine ⟨d, hd, hnd, ?_⟩
  rw [hlook (.str "a")]
  rfl

/-- C10: for some modal payload holding a component of text-input type `4`
without a `custom_id` key, reading `text_values` raises a key error; while
a component lacking the `type` key never causes an error — the dict
comprehension skips it — and is excluded from the result, as shown both at
the step level and end to end. -/
theorem claim10_missing_custom_id_key_error :
    (ModalInteraction.text_values
        ⟨⟨.str "m", .arr [.obj [("components", .arr [
          .obj [("type", .num 4), ("value", .str "x")]])]]⟩, none⟩ =
      .error "KeyError: custom_id") ∧
    (∀ acc c, c.get "type" = none → textValuesStep acc c = .ok acc) ∧
    ((ModalInteraction.text_values
        ⟨⟨.str "m", .arr [.obj [("components", .arr [
          .obj [("custom_id", .str "ignored"), ("value", .str "zz")],
          .obj [("type", .num 4), ("custom_id", .str "bio"), ("value", .str "hi")]])]]⟩,
         none⟩).map Prod.fst = .ok [(.str "bio", .str "hi")]) := by
  refine ⟨rfl, ?_, rfl⟩
  intro acc c h
  unfold textValuesStep textInput
  rw [h]
  rfl

/-- Witness for C10: the step-level conjunct applied to a concrete typeless
component. -/
theorem claim10_missing_custom_id_key_error_witness :
    textValuesStep [] (.obj [("custom_id", .str "ignored"), ("value", .str "zz")]) =
      .ok [] :=
  claim10_missing_custom_id_key_error.2.1 [] _ rfl

/-- Inversion of a successful `AppInfo.init`: every required key was
present, and every stored attribute is determined by the payload. -/
theorem appInfo_init_ok_inv {d : JSON} {a : AppInfo} (h : AppInfo.init d = .ok a) :
    ∃ idj, d.get "id" = some idj ∧ pyInt idj = .ok a.id ∧
    d.get "name" = some a.name ∧
    d.get "description" = some a.description ∧
    d.get "icon" = some a.icon_hash ∧
    d.get "rpc_origins" = some a.rpc_origins ∧
    d.get "bot_public" = some a.bot_public ∧
    d.get "bot_require_code_grant" = some a.bot_require_code_grant ∧
    d.get "owner" = some a.owner.payload ∧
    a.team = (if pyTruthy ((d.get "team").getD .null) then
      some ⟨(d.get "team").getD .null⟩ else none) ∧
    a.summary_raw = pyGetD d "summary" (.str "") ∧
    d.get "verify_key" = some a.verify_key ∧
    get_as_snowflake d "guild_id" = .ok a.guild_id ∧
    get_as_snowflake d "primary_sku_id" = .ok a.primary_sku_id ∧
    a.slug = pyGet d "slug" ∧
    a.cover_image_hash = pyGet d "cover_image" ∧
    a.terms_of_service_url = pyGet d "terms_of_service_url" ∧
    a.privacy_policy_url = pyGet d "privacy_policy_url" ∧
    a.flags = (pyGet d "flags").map ApplicationFlags.mk ∧
    a.tags = pyGet d "tags" ∧
    ((∃ ipd, d.get "install_params" = some ipd ∧
        ∃ ip, InstallParams.init ipd a.id none = .ok ip ∧ a.install_params = some ip) ∨
      (d.get "install_params" = none ∧ a.install_params = none)) ∧
    a.custom_install_url = pyGet d "custom_install_url" ∧
    a.role_connections_verification_url = pyGet d "role_connections_verification_url" ∧
    a.approximate_guild_count = pyGetD d "approximate_guild_count" (.num 0) ∧
    a.approximate_user_install_count = pyGetD d "approximate_user_install_count" (.num 0) ∧
    parseIntegrationTypesConfig (d.get "integration_types_config") a.id =
      .ok a.integration_types_config := by
  unfold AppInfo.init at h
  simp only [exceptBind_ok_iff, require_ok_iff] at h
  obtain ⟨idj, hid, n, hn, name, hname, desc, hdesc, icon, hicon, rpc, hrpc,
    pub, hpub, grant, hgrant, owner, howner, vk, hvk, gid, hgid, skuid, hskuid,
    hrest⟩ := h
  cases hips : d.get "install_params" with
  | some ipd =>
    rw [hips] at hrest
    simp only [exceptBind_ok_iff, exceptMap_ok_iff] at hrest
    obtain ⟨y, ⟨ip0, hip0, hy⟩, itc, hitc, hfin⟩ := hrest
    have hfin' := Except.ok.inj hfin
    subst hfin'
    exact ⟨idj, hid, hn, hname, hdesc, hicon, hrpc, hpub, hgrant, howner,
      rfl, rfl, hvk, hgid, hskuid, rfl, rfl, rfl, rfl, rfl, rfl,
      Or.inl ⟨ipd, rfl, ip0, hip0, hy ▸ rfl⟩, rfl, rfl, rfl, rfl, hitc⟩
  | none =>
    rw [hips] at hrest
    simp only [exceptBind_ok_iff, pure, Except.pure] at hrest
    obtain ⟨y, hy, itc, hitc, hfin⟩ := hrest
    have hyn : y = none := (Except.ok.inj hy).symm
    subst hyn
    have hfin' := Except.ok.inj hfin
    subst hfin'
    exact ⟨idj, hid, hn, hname, hdesc, hicon, hrpc, hpub, hgrant, howner,
      rfl, rfl, hvk, hgid, hskuid, rfl, rfl, rfl, rfl, rfl, rfl,
      Or.inr ⟨rfl, rfl⟩, rfl, rfl, rfl, rfl, hitc⟩

/-! ## Claims about `disnake/appinfo.py` -/

/-- C3 counterexample: a payload containing exactly the five keys the claim
calls required (`id`, `name`, `description`, `icon`, `verify_key`) and
nothing else does NOT construct — `AppInfo.__init__` also bracket-indexes
`rpc_origins` (and `bot_public`, `bot_require_code_grant`, `owner`), so
construction raises a `KeyError`. -/
theorem claim3_counterexample :
    AppInfo.init (.obj [("id", .str "123"), ("name", .str "app"),
      ("description", .str "d"), ("icon", .null), ("verify_key", .str "k")]) =
      .error "KeyError: rpc_origins" := rfl

/-- C3 (amended): the keys `AppInfo.__init__` requires are `id`, `name`,
`description`, `icon`, `rpc_origins`, `bot_public`, `bot_require_code_grant`,
`owner` and `verify_key`.  With those present (and `id` coercible to an
integer) and every other key absent, construction succeeds and every
optional attribute is `None`/empty/zero; and whenever any required key is
missing from a payload, construction returns no object. -/
theorem claim3_required_and_optional_keys
    (d idj nm ds ic rpc pub grant ow vk : JSON) (n : Int)
    (hid : d.get "id" = some idj) (hn : pyInt idj = .ok n)
    (hname : d.get "name" = some nm)
    (hdesc : d.get "description" = some ds)
    (hicon : d.get "icon" = some ic)
    (hrpc : d.get "rpc_origins" = some rpc)
    (hpub : d.get "bot_public" = some pub)
    (hgrant : d.get "bot_require_code_grant" = some grant)
    (howner : d.get "owner" = some ow)
    (hvk : d.get "verify_key" = some vk)
    (habsent : ∀ k, k ∉ appInfoRequiredKeys → d.get k = none) :
    AppInfo.init d = .ok
      { id := n, name := nm, description := ds, icon_hash := ic, rpc_origins := rpc,
        bot_public := pub, bot_require_code_grant := grant, owner := ⟨ow⟩,
        team := none, summary_raw := .str "", verify_key := vk, guild_id := none,
        primary_sku_id := none, slug := none, cover_image_hash := none,
        terms_of_service_url := none, privacy_policy_url := none, flags := none,
        tags := none, install_params := none, custom_install_url := none,
        role_connections_verification_url := none,
        approximate_guild_count := .num 0, approximate_user_install_count := .num 0,
        integration_types_config := [] } ∧
    (∀ (e : JSON) (a : AppInfo), AppInfo.init e = .ok a →
      ∀ k ∈ appInfoRequiredKeys, (e.get k).isSome) := by
  have hteam : d.get "team" = none := habsent "team" (by decide)
  have hsum : d.get "summary" = none := habsent "summary" (by decide)
  have hguild : d.get "guild_id" = none := habsent "guild_id" (by decide)
  have hsku : d.get "primary_sku_id" = none := habsent "primary_sku_id" (by decide)
  have hslug : d.get "slug" = none := habsent "slug" (by decide)
  have hcover : d.get "cover_image" = none := habsent "cover_image" (by decide)
  have htos : d.get "terms_of_service_url" = none :=
    habsent "terms_of_service_url" (by decide)
  have hpriv : d.get "privacy_policy_url" = none :=
    habsent "privacy_policy_url" (by decide)
  have hflags : d.get "flags" = none := habsent "flags" (by decide)
  have htags : d.get "tags" = none := habsent "tags" (by decide)
  have hipk : d.get "install_params" = none := habsent "install_params" (by decide)
  have hciu : d.get "custom_install_url" = none :=
    habsent "custom_install_url" (by decide)
  have hrcvu : d.get "role_connections_verification_url" = none :=
    habsent "role_connections_verification_url" (by decide)
  have hagc : d.get "approximate_guild_count" = none :=
    habsent "approximate_guild_count" (by decide)
  have hauic : d.get "approximate_user_install_count" = none :=
    habsent "approximate_user_install_count" (by decide)
  have hitck : d.get "integration_types_config" = none :=
    habsent "integration_types_config" (by decide)
  constructor
  · unfold AppInfo.init
    simp only [require, hid, hname, hdesc, hicon, hrpc, hpub, hgrant, howner, hvk,
      hn, hteam, hsum, hguild, hsku, hslug, hcover, htos, hpriv, hflags, htags,
      hipk, hciu, hrcvu, hagc, hauic, hitck, get_as_snowflake, pyGet, pyGetD,
      parseIntegrationTypesConfig, pyTruthy, Option.getD, bind, Except.bind,
      pure, Except.pure]
    rfl
  · intro e a h k hk
    obtain ⟨idj', hid', _, hname', hdesc', hicon', hrpc', hpub', hgrant',
      howner', _, _, hvk', _⟩ := appInfo_init_ok_inv h
    simp only [appInfoRequiredKeys, List.mem_cons, List.mem_singleton,
      List.not_mem_nil, or_false] at hk
    rcases hk with rfl | rfl | rfl | rfl | rfl | rfl | rfl | rfl | rfl
    · simp [hid']
    · simp [hname']
    · simp [hdesc']
    · simp [hicon']
    · simp [hrpc']
    · simp [hpub']
    · simp [hgrant']
    · simp [howner']
    · simp [hvk']

/-- Witness for the amended C3: nine-key payload constructs with all
optional attributes defaulted. -/
theorem claim3_required_and_optional_keys_witness :
    AppInfo.init (.obj [("id", .str "123"), ("name", .str "app"),
      ("description", .str "d"), ("icon", .null), ("rpc_origins", .arr []),
      ("bot_public", .bool true), ("bot_require_code_grant", .bool false),
      ("owner", .obj [("id", .str "7")]), ("verify_key", .str "k")]) = .ok
      { id := 123, name := .str "app", description := .str "d", icon_hash := .null,
        rpc_origins := .arr [], bot_public := .bool true,
        bot_require_code_grant := .bool false, owner := ⟨.obj [("id", .str "7")]⟩,
        team := none, summary_raw := .str "", verify_key := .str "k",
        guild_id := none, primary_sku_id := none, slug := none,
        cover_image_hash := none, terms_of_service_url := none,
        privacy_policy_url := none, flags := none, tags := none,
        install_params := none, custom_install_url := none,
        role_connections_verification_url := none,
        approximate_guild_count := .num 0, approximate_user_install_count := .num 0,
        integration_types_config := [] } := by
  have h := claim3_required_and_optional_keys
    (.obj [("id", .str "123"), ("name", .str "app"),
      ("description", .str "d"), ("icon", .null), ("rpc_origins", .arr []),
      ("bot_public", .bool true), ("bot_require_code_grant", .bool false),
      ("owner", .obj [("id", .str "7")]), ("verify_key", .str "k")])
    (.str "123") (.str "app") (.str "d") .null (.arr []) (.bool true) (.bool false)
    (.obj [("id", .str "7")]) (.str "k") 123
    rfl rfl rfl rfl rfl rfl rfl rfl rfl rfl
    (by
      intro k hk
      simp only [appInfoRequiredKeys, List.mem_cons, List.mem_singleton,
        List.not_mem_nil, or_false, not_or] at hk
      obtain ⟨h1, h2, h3, h4, h5, h6, h7, h8, h9⟩ := hk
      have b1 : ("id" == k) = false := beq_eq_false_iff_ne.mpr (Ne.symm h1)
      have b2 : ("name" == k) = false := beq_eq_false_iff_ne.mpr (Ne.symm h2)
      have b3 : ("description" == k) = false := beq_eq_false_iff_ne.mpr (Ne.symm h3)
      have b4 : ("icon" == k) = false := beq_eq_false_iff_ne.mpr (Ne.symm h4)
      have b5 : ("rpc_origins" == k) = false := beq_eq_false_iff_ne.mpr (Ne.symm h5)
      have b6 : ("bot_public" == k) = false := beq_eq_false_iff_ne.mpr (Ne.symm h6)
      have b7 : ("bot_require_code_grant" == k) = false :=
        beq_eq_false_iff_ne.mpr (Ne.symm h7)
      have b8 : ("owner" == k) = false := beq_eq_false_iff_ne.mpr (Ne.symm h8)
      have b9 : ("verify_key" == k) = false := beq_eq_false_iff_ne.mpr (Ne.symm h9)
      simp [JSON.get, List.find?, b1, b2, b3, b4, b5, b6, b7, b8, b9])
  exact h.1

theorem intDictInsert_fresh (d : List (Int × IntegrationTypeConfiguration))
    (k : Int) (v : IntegrationTypeConfiguration)
    (h : ∀ p ∈ d, p.1 ≠ k) : intDictInsert d k v = d ++ [(k, v)] := by
  unfold intDictInsert
  have : (d.any fun p => p.1 == k) = false := by
    rw [List.any_eq_false]
    intro p hp
    simpa using h p hp
  simp [this]

/-- The `integration_types_config` loop on an object payload: one entry per
key, keyed by the parsed integer, in payload order, provided the integer
keys are distinct and each per-key construction succeeds. -/
theorem parseIntegrationTypesConfig_obj_ok (m : List (String × JSON)) (pid : Int)
    (tOf : String × JSON → Int) (cfgOf : String × JSON → IntegrationTypeConfiguration)
    (ht : ∀ kv ∈ m, pyInt (.str kv.1) = .ok (tOf kv))
    (hcfg : ∀ kv ∈ m, IntegrationTypeConfiguration.init
      (if pyTruthy kv.2 then kv.2 else .obj []) pid (tOf kv) = .ok (cfgOf kv))
    (hnd : (m.map tOf).Nodup) :
    parseIntegrationTypesConfig (some (.obj m)) pid =
      .ok (m.map (fun kv => (tOf kv, cfgOf kv))) := by
  have main : ∀ (l : List (String × JSON)) (acc : List (Int × IntegrationTypeConfiguration)),
      (∀ kv ∈ l, pyInt (.str kv.1) = .ok (tOf kv)) →
      (∀ kv ∈ l, IntegrationTypeConfiguration.init
        (if pyTruthy kv.2 then kv.2 else .obj []) pid (tOf kv) = .ok (cfgOf kv)) →
      (l.map tOf).Nodup →
      (∀ kv ∈ l, ∀ q ∈ acc, q.1 ≠ tOf kv) →
      l.foldlM (fun acc kv => do
          let t ← pyInt (.str kv.1)
          let cfgPayload := if pyTruthy kv.2 then kv.2 else JSON.obj []
          let cfg ← IntegrationTypeConfiguration.init cfgPayload pid t
          Except.ok (intDictInsert acc t cfg)) acc =
        .ok (acc ++ l.map (fun kv => (tOf kv, cfgOf kv))) := by
    intro l
    induction l with
    | nil => intro acc _ _ _ _; simp [pure, Except.pure]
    | cons kv rest ih =>
      intro acc htl hcfgl hndl hdisj
      rw [List.foldlM_cons]
      have hfresh : intDictInsert acc (tOf kv) (cfgOf kv) =
          acc ++ [(tOf kv, cfgOf kv)] :=
        intDictInsert_fresh acc (tOf kv) (cfgOf kv)
          (fun q hq => hdisj kv (by simp) q hq)
      have ih' := ih (acc ++ [(tOf kv, cfgOf kv)])
        (fun q hq => htl q (List.mem_cons_of_mem _ hq))
        (fun q hq => hcfgl q (List.mem_cons_of_mem _ hq))
        (by simpa using (List.nodup_cons.mp (by simpa using hndl)).2)
        (by
          intro r hr q hq
          rcases List.mem_append.mp hq with h | h
          · exact hdisj r (List.mem_cons_of_mem _ hr) q h
          · simp at h
            subst h
            intro hteq
            have hteq' : tOf kv = tOf r := hteq
            have hmem : tOf kv ∈ rest.map tOf :=
              hteq' ▸ List.mem_map.mpr ⟨r, hr, rfl⟩
            exact (List.nodup_cons.mp (by simpa using hndl)).1 hmem)
      simp only [bind, Except.bind] at ih'
      simp only [bind, Except.bind, htl kv (by simp), hcfgl kv (by simp), hfresh, ih']
      simp
  cases m with
  | nil => rfl
  | cons kv rest =>
    unfold parseIntegrationTypesConfig
    have htr : pyTruthy (.obj (kv :: rest)) = true := by simp [pyTruthy]
    simp only [Option.getD_some, htr, if_true]
    rw [main (kv :: rest) [] ht hcfg hnd (fun r _ q hq => absurd hq (by simp))]
    simp

/-- A per-key sub-payload whose `oauth2_install_params` entry is null (or
absent, or otherwise falsy) yields `install_params = None`. -/
theorem integrationTypeConfiguration_init_null (data : JSON) (pid t : Int)
    (h : pyTruthy ((data.get "oauth2_install_params").getD .null) = false) :
    IntegrationTypeConfiguration.init data pid t = .ok ⟨none⟩ := by
  unfold IntegrationTypeConfiguration.init
  simp [h]

/-- C6: `AppInfo.integration_types_config` is determined by
`parseIntegrationTypesConfig`; an absent or null `integration_types_config`
mapping yields the empty dict; an object mapping yields exactly one
`IntegrationTypeConfiguration` entry per payload key, keyed by the integer
parsed from the string key, with a null per-key value treated as an empty
sub-payload; and any entry whose sub-payload has `oauth2_install_params`
null (or absent) gets `install_params = None`. -/
theorem claim6_integration_types_config (pid : Int) :
    (∀ d a, AppInfo.init d = .ok a →
      parseIntegrationTypesConfig (d.get "integration_types_config") a.id =
        .ok a.integration_types_config) ∧
    parseIntegrationTypesConfig none pid = .ok [] ∧
    parseIntegrationTypesConfig (some .null) pid = .ok [] ∧
    (∀ (m : List (String × JSON))
        (tOf : String × JSON → Int) (cfgOf : String × JSON → IntegrationTypeConfiguration),
      (∀ kv ∈ m, pyInt (.str kv.1) = .ok (tOf kv)) →
      (∀ kv ∈ m, IntegrationTypeConfiguration.init
        (if pyTruthy kv.2 then kv.2 else .obj []) pid (tOf kv) = .ok (cfgOf kv)) →
      (m.map tOf).Nodup →
      parseIntegrationTypesConfig (some (.obj m)) pid =
        .ok (m.map (fun kv => (tOf kv, cfgOf kv)))) ∧
    (∀ kv : String × JSON, kv.2 = .null →
      (if pyTruthy kv.2 then kv.2 else JSON.obj []) = JSON.obj []) ∧
    (∀ (data : JSON) (t : Int),
      data.get "oauth2_install_params" = some .null ∨
        data.get "oauth2_install_params" = none →
      IntegrationTypeConfiguration.init data pid t = .ok ⟨none⟩) := by
  refine ⟨?_, rfl, rfl, ?_, ?_, ?_⟩
  · intro d a h
    obtain ⟨_, _, _, _, _, _, _, _, _, _, _, _, _, _, _, _, _, _, _, _, _, _,
      _, _, _, _, hitc⟩ := appInfo_init_ok_inv h
    exact hitc
  · intro m tOf cfgOf ht hcfg hnd
    exact parseIntegrationTypesConfig_obj_ok m pid tOf cfgOf ht hcfg hnd
  · intro kv hkv
    rw [hkv]
    rfl
  · intro data t h
    apply integrationTypeConfiguration_init_null
    rcases h with h | h <;> rw [h] <;> rfl

/-- Witness for C6: the inversion conjunct applied to a nine-key payload
carrying an `integration_types_config` with a null `"0"` entry and a
populated `"1"` entry. -/
theorem claim6_integration_types_config_witness :
    parseIntegrationTypesConfig
        ((JSON.obj [("id", .str "1"), ("name", .str "a"), ("description", .str "d"),
          ("icon", .null), ("rpc_origins", .arr []), ("bot_public", .bool true),
          ("bot_require_code_grant", .bool false), ("owner", .obj []),
          ("verify_key", .str "k"),
          ("integration_types_config", .obj [("0", .null),
            ("1", .obj [("oauth2_install_params",
              .obj [("scopes", .arr [.str "bot"]), ("permissions", .str "8")])])])]).get
          "integration_types_config") 1 =
      .ok [(0, ⟨none⟩), (1, ⟨some ⟨1, some 1, .arr [.str "bot"], ⟨8⟩⟩⟩)] := by
  have h := (claim6_integration_types_config 1).1
    (JSON.obj [("id", .str "1"), ("name", .str "a"), ("description", .str "d"),
      ("icon", .null), ("rpc_origins", .arr []), ("bot_public", .bool true),
      ("bot_require_code_grant", .bool false), ("owner", .obj []),
      ("verify_key", .str "k"),
      ("integration_types_config", .obj [("0", .null),
        ("1", .obj [("oauth2_install_params",
          .obj [("scopes", .arr [.str "bot"]), ("permissions", .str "8")])])])])
    { id := 1, name := .str "a", description := .str "d", icon_hash := .null,
      rpc_origins := .arr [], bot_public := .bool true,
      bot_require_code_grant := .bool false, owner := ⟨.obj []⟩, team := none,
      summary_raw := .str "", verify_key := .str "k", guild_id := none,
      primary_sku_id := none, slug := none, cover_image_hash := none,
      terms_of_service_url := none, privacy_policy_url := none, flags := none,
      tags := none, install_params := none, custom_install_url := none,
      role_connections_verification_url := none,
      approximate_guild_count := .num 0, approximate_user_install_count := .num 0,
      integration_types_config := [(0, ⟨none⟩),
        (1, ⟨some ⟨1, some 1, .arr [.str "bot"], ⟨8⟩⟩⟩)] }
    rfl
  exact h

theorem scopeStringsList_map (ss : List String) :
    scopeStringsList (ss.map .str) = .ok ss := by
  induction ss with
  | nil => rfl
  | cons s rest ih =>
    simp only [List.map_cons, scopeStringsList, ih]
    rfl

/-- A string sandwiched between two others is a substring (infix of the
character list). -/
theorem infix_of_append (pre mid post : String) :
    mid.data <:+: (pre ++ mid ++ post).data :=
  ⟨pre.data, post.data, by simp [String.data_append]⟩

/-- C2: for every `AppInfo` payload whose `install_params` entry carries a
string scope list and an int-coercible permission value, the constructed
`InstallParams` child uses the parent's application id and no integration
type, and `to_url()` returns a URL string embedding the application id, the
scopes in original order joined by the fixed `"%20"` delimiter, and the
decimal permission value; for any `InstallParams`, the URL ends with the
integration-type query parameter exactly when the integration type is
non-`None`.  `to_url` is a pure string computation (a total function of the
stored fields). -/
theorem claim2_install_params_to_url
    (d : JSON) (a : AppInfo) (ipd pv : JSON) (ss : List String) (P : Int)
    (hinit : AppInfo.init d = .ok a)
    (hips : d.get "install_params" = some ipd)
    (hscopes : ipd.get "scopes" = some (.arr (ss.map .str)))
    (hperm : ipd.get "permissions" = some pv)
    (hP : pyInt pv = .ok P) :
    ∃ ip u,
      a.install_params = some ip ∧
      ip.app_id = a.id ∧ ip.integration_type = none ∧
      ip.scopes = .arr (ss.map .str) ∧ ip.permissions = ⟨P⟩ ∧
      ip.to_url = .ok u ∧
      u = oauth_url a.id ss ⟨P⟩ none ∧
      (toString a.id).data <:+: u.data ∧
      (String.intercalate "%20" ss).data <:+: u.data ∧
      ("&permissions=" ++ toString P).data <:+: u.data ∧
      (∀ (ip' : InstallParams) (ss' : List String) (u' : String),
        ip'.scopes = .arr (ss'.map .str) → ip'.to_url = .ok u' →
        ((ip'.integration_type = none →
            u' = oauth_url ip'.app_id ss' ip'.permissions none) ∧
         (∀ t, ip'.integration_type = some t →
            u' = oauth_url ip'.app_id ss' ip'.permissions none
              ++ ("&integration_type=" ++ toString t)))) := by
  have hgen : ∀ (ip' : InstallParams) (ss' : List String) (u' : String),
      ip'.scopes = .arr (ss'.map .str) → ip'.to_url = .ok u' →
      ((ip'.integration_type = none →
          u' = oauth_url ip'.app_id ss' ip'.permissions none) ∧
       (∀ t, ip'.integration_type = some t →
          u' = oauth_url ip'.app_id ss' ip'.permissions none
            ++ ("&integration_type=" ++ toString t))) := by
    intro ip' ss' u' hsc hurl
    unfold InstallParams.to_url at hurl
    rw [hsc] at hurl
    simp only [scopeStrings, scopeStringsList_map, exceptBind_ok_iff] at hurl
    obtain ⟨l, hl, hurl⟩ := hurl
    have hls : l = ss' := by
      have := Except.ok.inj hl
      exact this.symm
    subst hls
    have hu : u' = oauth_url ip'.app_id l ip'.permissions ip'.integration_type :=
      (Except.ok.inj hurl).symm
    constructor
    · intro hnone
      rw [hu, hnone]
    · intro t ht
      rw [hu, ht]
      unfold oauth_url
      simp [String.append_assoc, String.append_empty]
  obtain ⟨_, _, _, _, _, _, _, _, _, _, _, _, _, _, _, _, _, _, _, _, _,
    hipc, _⟩ := appInfo_init_ok_inv hinit
  rcases hipc with ⟨ipd', hips', ip, hip, hsome⟩ | ⟨hnone, _⟩
  · rw [hips'] at hips
    obtain rfl : ipd' = ipd := Option.some.inj hips
    unfold InstallParams.init at hip
    simp only [exceptBind_ok_iff, require_ok_iff] at hip
    obtain ⟨sc, hsc, pj, hpj, n', hn', hfin⟩ := hip
    rw [hscopes] at hsc
    obtain rfl : sc = .arr (ss.map .str) := (Option.some.inj hsc).symm
    rw [hperm] at hpj
    obtain rfl : pj = pv := (Option.some.inj hpj).symm
    rw [hP] at hn'
    obtain rfl : P = n' := Except.ok.inj hn'
    have hipv : ip = ⟨a.id, none, .arr (ss.map .str), ⟨P⟩⟩ :=
      (Except.ok.inj hfin).symm
    subst hipv
    refine ⟨⟨a.id, none, .arr (ss.map .str), ⟨P⟩⟩,
      oauth_url a.id ss ⟨P⟩ none, hsome, rfl, rfl, rfl, rfl, ?_, rfl, ?_, ?_, ?_, hgen⟩
    · unfold InstallParams.to_url
      simp only [scopeStrings, scopeStringsList_map, bind, Except.bind]
    · have : oauth_url a.id ss ⟨P⟩ none =
          "https://discord.com/oauth2/authorize?client_id=" ++ toString a.id ++
            ("&scope=" ++ String.intercalate "%20" ss ++ "&permissions=" ++
              toString P) := by
        unfold oauth_url
        simp [String.append_assoc, String.append_empty]
      rw [this]
      exact infix_of_append _ _ _
    · have : oauth_url a.id ss ⟨P⟩ none =
          ("https://discord.com/oauth2/authorize?client_id=" ++ toString a.id ++
            "&scope=") ++ String.intercalate "%20" ss ++
            ("&permissions=" ++ toString P) := by
        unfold oauth_url
        simp [String.append_assoc, String.append_empty]
      rw [this]
      exact infix_of_append _ _ _
    · have : oauth_url a.id ss ⟨P⟩ none =
          ("https://discord.com/oauth2/authorize?client_id=" ++ toString a.id ++
            "&scope=" ++ String.intercalate "%20" ss) ++
            ("&permissions=" ++ toString P) ++ "" := by
        unfold oauth_url
        simp [String.append_assoc, String.append_empty]
      rw [this]
      exact infix_of_append _ _ _
  · rw [hips] at hnone
    cases hnone

/-- Witness for C2: a nine-key payload with
`install_params = {scopes: ["bot", "applications.commands"], permissions: "8"}`
produces the expected invite URL with no integration-type parameter. -/
theorem claim2_install_params_to_url_witness :
    ∃ (a : AppInfo) (ip : InstallParams),
      AppInfo.init (.obj [("id", .str "123"), ("name", .str "app"),
        ("description", .str "d"), ("icon", .null), ("rpc_origins", .arr []),
        ("bot_public", .bool true), ("bot_require_code_grant", .bool false),
        ("owner", .obj []), ("verify_key", .str "k"),
        ("install_params", .obj [
          ("scopes", .arr [.str "bot", .str "applications.commands"]),
          ("permissions", .str "8")])]) = .ok a ∧
      a.install_params = some ip ∧
      ip.to_url = .ok
        "https://discord.com/oauth2/authorize?client_id=123&scope=bot%20applications.commands&permissions=8" := by
  have h := claim2_install_params_to_url
    (.obj [("id", .str "123"), ("name", .str "app"),
      ("description", .str "d"), ("icon", .null), ("rpc_origins", .arr []),
      ("bot_public", .bool true), ("bot_require_code_grant", .bool false),
      ("owner", .obj []), ("verify_key", .str "k"),
      ("install_params", .obj [
        ("scopes", .arr [.str "bot", .str "applications.commands"]),
        ("permissions", .str "8")])])
    { id := 123, name := .str "app", description := .str "d", icon_hash := .null,
      rpc_origins := .arr [], bot_public := .bool true,
      bot_require_code_grant := .bool false, owner := ⟨.obj []⟩, team := none,
      summary_raw := .str "", verify_key := .str "k", guild_id := none,
      primary_sku_id := none, slug := none, cover_image_hash := none,
      terms_of_service_url := none, privacy_policy_url := none, flags := none,
      tags := none,
      install_params := some ⟨123, none,
        .arr [.str "bot", .str "applications.commands"], ⟨8⟩⟩,
      custom_install_url := none, role_connections_verification_url := none,
      approximate_guild_count := .num 0, approximate_user_install_count := .num 0,
      integration_types_config := [] }
    (.obj [("scopes", .arr [.str "bot", .str "applications.commands"]),
      ("permissions", .str "8")])
    (.str "8") ["bot", "applications.commands"] 8
    rfl rfl rfl rfl rfl
  obtain ⟨ip, u, h1, _, _, _, _, h6, h7, _⟩ := h
  refine ⟨_, ip, rfl, h1, ?_⟩
  rw [h6, h7]
  rfl

/-- Inversion of a successful `PartialAppInfo.init`. -/
theorem partialAppInfo_init_ok_inv {d : JSON} {p : PartialAppInfo}
    (h : PartialAppInfo.init d = .ok p) :
    ∃ idj, d.get "id" = some idj ∧ pyInt idj = .ok p.id ∧
    d.get "name" = some p.name ∧
    p.icon_hash = pyGet d "icon" ∧
    d.get "description" = some p.description ∧
    p.rpc_origins = pyGet d "rpc_origins" ∧
    p.summary_raw = pyGetD d "summary" (.str "") ∧
    d.get "verify_key" = some p.verify_key ∧
    p.terms_of_service_url = pyGet d "terms_of_service_url" ∧
    p.privacy_policy_url = pyGet d "privacy_policy_url" := by
  unfold PartialAppInfo.init at h
  simp only [exceptBind_ok_iff, require_ok_iff] at h
  obtain ⟨idj, hid, n, hn, nm, hname, ds, hdesc, vk, hvk, hfin⟩ := h
  have hfin' := Except.ok.inj hfin
  subst hfin'
  exact ⟨idj, hid, hn, hname, rfl, hdesc, rfl, rfl, hvk, rfl, rfl⟩

/-- C7: each read of the `summary` property emits exactly one deprecation
warning (a second read appends a second copy — warnings are not
deduplicated across calls) and returns the stored summary value verbatim,
identically on every read; the stored value is the payload's `summary`
entry, on both `AppInfo` and `PartialAppInfo`. -/
theorem claim7_summary_warns_once_per_call :
    (∀ (a : AppInfo) (log : List String),
      (a.summary log).1 = a.summary_raw ∧
      (a.summary log).2 = log ++ [summaryDeprecationMessage] ∧
      (a.summary ((a.summary log).2)).1 = (a.summary log).1 ∧
      (a.summary ((a.summary log).2)).2 =
        log ++ [summaryDeprecationMessage, summaryDeprecationMessage]) ∧
    (∀ (p : PartialAppInfo) (log : List String),
      (p.summary log).1 = p.summary_raw ∧
      (p.summary log).2 = log ++ [summaryDeprecationMessage] ∧
      (p.summary ((p.summary log).2)).1 = (p.summary log).1 ∧
      (p.summary ((p.summary log).2)).2 =
        log ++ [summaryDeprecationMessage, summaryDeprecationMessage]) ∧
    (∀ (e : JSON) (a : AppInfo) (s : JSON), AppInfo.init e = .ok a →
      e.get "summary" = some s → a.summary_raw = s) ∧
    (∀ (e : JSON) (p : PartialAppInfo) (s : JSON), PartialAppInfo.init e = .ok p →
      e.get "summary" = some s → p.summary_raw = s) := by
  refine ⟨?_, ?_, ?_, ?_⟩
  · intro a log
    refine ⟨rfl, rfl, rfl, ?_⟩
    simp [AppInfo.summary]
  · intro p log
    refine ⟨rfl, rfl, rfl, ?_⟩
    simp [PartialAppInfo.summary]
  · intro e a sv h hget
    obtain ⟨_, _, _, _, _, _, _, _, _, _, _, hsum, _⟩ := appInfo_init_ok_inv h
    rw [hsum]
    unfold pyGetD
    rw [hget]
  · intro e p sv h hget
    obtain ⟨_, _, _, _, _, _, _, hsum, _⟩ := partialAppInfo_init_ok_inv h
    rw [hsum]
    unfold pyGetD
    rw [hget]

/-- Witness for C7: a `PartialAppInfo` built from a payload with
`summary = "old text"`; two reads each add one warning and both return the
stored value. -/
theorem claim7_summary_warns_once_per_call_witness :
    ∃ p : PartialAppInfo,
      PartialAppInfo.init (.obj [("id", .str "5"), ("name", .str "n"),
        ("description", .str "d"), ("verify_key", .str "k"),
        ("summary", .str "old text")]) = .ok p ∧
      p.summary_raw = .str "old text" ∧
      (p.summary []).1 = .str "old text" ∧
      (p.summary []).2 = [summaryDeprecationMessage] ∧
      (p.summary ((p.summary []).2)).2 =
        [summaryDeprecationMessage, summaryDeprecationMessage] := by
  refine ⟨⟨5, .str "n", none, .str "d", none, .str "old text", .str "k",
    none, none⟩, rfl, ?_, ?_, ?_, ?_⟩
  · exact claim7_summary_warns_once_per_call.2.2.2
      (.obj [("id", .str "5"), ("name", .str "n"),
        ("description", .str "d"), ("verify_key", .str "k"),
        ("summary", .str "old text")])
      ⟨5, .str "n", none, .str "d", none, .str "old text", .str "k", none, none⟩
      (.str "old text") rfl rfl
  · exact (claim7_summary_warns_once_per_call.2.1
      ⟨5, .str "n", none, .str "d", none, .str "old text", .str "k", none, none⟩ []).1
  · exact (claim7_summary_warns_once_per_call.2.1
      ⟨5, .str "n", none, .str "d", none, .str "old text", .str "k", none, none⟩ []).2.1
  · exact (claim7_summary_warns_once_per_call.2.1
      ⟨5, .str "n", none, .str "d", none, .str "old text", .str "k", none, none⟩ []).2.2.2

end Disnake
